import Mathlib

/-!
Verification of the `bb` repository: an SSH server (`AppClient` in
`crates/bb-server/src/ssh/client.rs`) bridging protocol callbacks to an
application channel, and a TUI render loop (`App` in
`crates/bb-tui/src/app.rs`) consuming typed events from an unbounded
channel and drawing frames into a fixed viewport.

The embedding is shallow: each Rust function becomes a Lean function on
explicit state; fallible Rust code (`anyhow::Result`) becomes `Except`;
a Rust `unimplemented!()` panic is modelled by a distinguished error
value `RunError.panicUnimplemented` so that panics stay distinguishable
from ordinary error returns.
-/

namespace BB

/-! ## Render-loop side (`crates/bb-tui/src/app.rs`) -/

/-- `ratatui::layout::Rect`: the viewport rectangle. `Rect::default()`
is the all-zero rectangle. Fields are `u16` in Rust; dimensions are
modelled as `Nat` (they are only stored and compared, never overflowed
on this side). -/
structure Rect where
  x : Nat
  y : Nat
  width : Nat
  height : Nat
deriving DecidableEq, Repr

/-- `Rect::default()`. -/
def Rect.defaultRect : Rect := ⟨0, 0, 0, 0⟩

/-- Modelled from the spec: the `AppEvent` enum of `crates/bb-tui/src/events.rs`
is not among the provided sources.  The spec describes it as a tagged
variant with `Render`, `Resize(width, height)` and reserved variants for
input and shutdown; those reserved variants are what the wildcard arm of
`App::run` receives. -/
inductive AppEvent where
  | render
  | resize (dims : Nat × Nat)
  | input (bytes : List Nat)
  | shutdown
deriving DecidableEq, Repr

/-- An event the `match` in `App::run` handles without reaching the
wildcard arm. -/
def AppEvent.supported : AppEvent → Bool
  | .render => true
  | .resize _ => true
  | _ => false

/-- The UI content drawn by `App::render`: a `Paragraph::new("hello world")`
inside a bordered `Block`, for every frame. -/
def uiContent : String := "hello world"

/-- State of the `App<W>` struct: the terminal's current fixed viewport,
and the trace of frames already written to the output sink `W`
(each frame records the viewport it was drawn into and the UI content,
newest last).  The event receiver is represented by the event list fed
to `App.run`. -/
structure App where
  viewport : Rect
  frames : List (Rect × String)
deriving DecidableEq, Repr

/-- `App::new`: the terminal is constructed with
`Viewport::Fixed(Rect::default())` and nothing written yet. -/
def App.new : App := { viewport := Rect.defaultRect, frames := [] }

/-- `App::render`: draws the UI tree in full into the current viewport
and writes the frame to the sink.  Deterministic: a pure function of the
state. -/
def App.render (a : App) : App :=
  { a with frames := a.frames ++ [(a.viewport, uiContent)] }

/-- How `App::run` can stop abnormally: the wildcard arm
`_ => unimplemented!()` panics. -/
inductive RunError where
  | panicUnimplemented
deriving DecidableEq, Repr

/-- One iteration of the `while let Some(event)` loop in `App::run`:

* `Render` calls `self.render()`;
* `Resize((width, height))` overwrites the viewport with
  `Rect { x: 0, y: 0, width, height }` (the result of
  `terminal.resize` is discarded by `let _ = ...`) and then renders
  immediately;
* any other variant hits `unimplemented!()` and panics. -/
def App.step (a : App) : AppEvent → Except RunError App
  | .render => .ok a.render
  | .resize (w, h) => .ok (App.render { a with viewport := ⟨0, 0, w, h⟩ })
  | _ => .error .panicUnimplemented

/-- `App::run`: consume events in order until the channel yields `None`
(every producer dropped and queue drained), then return `Ok(())`. -/
def App.run (a : App) : List AppEvent → Except RunError App
  | [] => .ok a
  | e :: es =>
    match a.step e with
    | .ok a' => a'.run es
    | .error err => .error err

/-! ## SSH handler side (`crates/bb-server/src/ssh/client.rs`) -/

/-- `AppChannel` (from `super::channel`): only its construction
`AppChannel::new(channel.id())` occurs in the provided sources; its
operations (`stdin`, `create_pty`, `resize`) are taken as parameters
where a handler delegates to them. -/
structure AppChannel where
  id : Nat
deriving DecidableEq, Repr

/-- `AppChannel::new`. -/
def AppChannel.new (id : Nat) : AppChannel := ⟨id⟩

/-- The `AppClient` struct: `app_channel: Option<AppChannel>`, with
`#[derive(Default)]` giving `app_channel = None`. -/
structure AppClient where
  app_channel : Option AppChannel
deriving DecidableEq, Repr

/-- `AppClient::default()`. -/
def AppClient.defaultClient : AppClient := ⟨none⟩

/-- Acknowledgments the handlers send back on the session:
`session.channel_success(id)` or `session.channel_failure(id)`. -/
inductive Ack where
  | success (ch : Nat)
  | failure (ch : Nat)
deriving DecidableEq, Repr

/-- The error message of the `anyhow::bail!` in `channel_open_session`. -/
def onlySingleChannelMsg : String := "only a single session channel can be created"

/-- The `.context(...)` message attached when `app_channel` is `None`. -/
def expectedOpenMsg : String := "expected `channel_open_session` to already be called"

/-- `AppClient::channel_open_session`: bails if a channel already
exists (leaving the stored channel untouched, since the bail happens
before any assignment); otherwise stores `AppChannel::new(channel.id())`
and returns `Ok(true)`.  The returned pair is (updated client, result). -/
def AppClient.channel_open_session (c : AppClient) (id : Nat) :
    AppClient × Except String Bool :=
  match c.app_channel with
  | some _ => (c, .error onlySingleChannelMsg)
  | none => ({ app_channel := some (AppChannel.new id) }, .ok true)

/-- The `channel_action_with_state!` macro: maps the result of a channel
action to the acknowledgment sent on the session. -/
def channel_action_with_state (action : Except Unit Unit) (ch : Nat) : Ack :=
  match action with
  | .ok _ => .success ch
  | .error _ => .failure ch

/-- Result of one protocol handler invocation: updated client state, the
acknowledgments sent on the session during the call (in order), and the
handler's own `anyhow::Result<()>`.  A `.error` in the last component is
returned to the russh runtime and is connection-fatal. -/
structure HandlerOutcome where
  client : AppClient
  acks : List Ack
  result : Except String Unit
deriving Repr

/-- `AppClient::data`: requires the channel to exist
(`.context(...)?` otherwise), then maps `app_channel.stdin(data)`
through `channel_action_with_state!` and returns `Ok(())`.
`stdin` is the (externally defined) `AppChannel::stdin`. -/
def AppClient.data (c : AppClient) (ch : Nat)
    (stdin : AppChannel → List Nat → Except Unit Unit)
    (bytes : List Nat) : HandlerOutcome :=
  match c.app_channel with
  | none => ⟨c, [], .error expectedOpenMsg⟩
  | some app => ⟨c, [channel_action_with_state (stdin app bytes) ch], .ok ()⟩

/-- `AppClient::pty_request`: requires the channel to exist, then maps
`app_channel.create_pty(session.handle(), col_width as u16, row_height as u16)`
through `channel_action_with_state!` and returns `Ok(())`.  The `as u16`
casts truncate the `u32` arguments modulo `2^16`. -/
def AppClient.pty_request (c : AppClient) (ch : Nat)
    (create_pty : AppChannel → Nat → Nat → Except Unit Unit)
    (col_width row_height : Nat) : HandlerOutcome :=
  match c.app_channel with
  | none => ⟨c, [], .error expectedOpenMsg⟩
  | some app =>
    ⟨c, [channel_action_with_state
        (create_pty app (col_width % 2 ^ 16) (row_height % 2 ^ 16)) ch], .ok ()⟩

/-- `AppClient::window_change_request`: requires the channel to exist,
then maps `app_channel.resize(col_width as u16, row_height as u16)`
through `channel_action_with_state!` and returns `Ok(())`. -/
def AppClient.window_change_request (c : AppClient) (ch : Nat)
    (resize : AppChannel → Nat → Nat → Except Unit Unit)
    (col_width row_height : Nat) : HandlerOutcome :=
  match c.app_channel with
  | none => ⟨c, [], .error expectedOpenMsg⟩
  | some app =>
    ⟨c, [channel_action_with_state
        (resize app (col_width % 2 ^ 16) (row_height % 2 ^ 16)) ch], .ok ()⟩

/-- The authentication result type (russh `Auth`), restricted to the
variants the handlers can produce. -/
inductive Auth where
  | accept
  | reject
deriving DecidableEq, Repr

/-- `AppClient::auth_none`: ignores its state and the username. -/
def AppClient.auth_none (_c : AppClient) (_user : String) : Except String Auth :=
  .ok .accept

/-- `AppClient::auth_password`: ignores state, username and password. -/
def AppClient.auth_password (_c : AppClient) (_user _password : String) :
    Except String Auth := .ok .accept

/-- `AppClient::auth_publickey`: ignores state, username and key (the
public key is opaque here, modelled as raw bytes). -/
def AppClient.auth_publickey (_c : AppClient) (_user : String) (_key : List Nat) :
    Except String Auth := .ok .accept

/-- A sequence of `channel_open_session` calls with the given channel
ids, threading the client state and collecting each call's result. -/
def openAll (c : AppClient) : List Nat → AppClient × List (Except String Bool)
  | [] => (c, [])
  | id :: ids =>
    let (c', r) := c.channel_open_session id
    let (c'', rs) := openAll c' ids
    (c'', r :: rs)

/-- Whether an `Except` value is a success. -/
def exceptOk {ε α : Type} : Except ε α → Bool
  | .ok _ => true
  | .error _ => false

/-- The viewport after the run loop processes a list of events, starting
from viewport `v`: each `Resize` overwrites it with `⟨0, 0, w, h⟩`;
no other event changes it. -/
def lastViewport (v : Rect) : List AppEvent → Rect
  | [] => v
  | .resize (w, h) :: es => lastViewport ⟨0, 0, w, h⟩ es
  | _ :: es => lastViewport v es

/-! ## Helper lemmas -/

/-- Once a channel is stored, any further sequence of
`channel_open_session` calls leaves the client unchanged and returns
only errors. -/
theorem openAll_some (ch : AppChannel) (ids : List Nat) :
    openAll ⟨some ch⟩ ids =
      (⟨some ch⟩, ids.map fun _ => Except.error onlySingleChannelMsg) := by
  induction ids with
  | nil => rfl
  | cons id ids ih =>
    simp [openAll, AppClient.channel_open_session, ih]

/-- `App.run` over an appended event list sequences the two runs. -/
theorem run_append (a : App) (es₁ es₂ : List AppEvent) :
    a.run (es₁ ++ es₂) =
      match a.run es₁ with
      | .ok b => b.run es₂
      | .error err => .error err := by
  induction es₁ generalizing a with
  | nil => rfl
  | cons e es ih =>
    cases h : a.step e with
    | ok a' => simp [App.run, h, ih]
    | error err => simp [App.run, h]

/-- A run over events the match handles returns successfully. -/
theorem run_ok_of_supported (es : List AppEvent) (a : App)
    (h : ∀ e ∈ es, e.supported = true) :
    exceptOk (a.run es) = true := by
  induction es generalizing a with
  | nil => rfl
  | cons e es ih =>
    have he : e.supported = true := h e (List.mem_cons_self ..)
    have hrest : ∀ e' ∈ es, e'.supported = true :=
      fun e' h' => h e' (List.mem_cons_of_mem _ h')
    cases e with
    | render => simpa [App.run, App.step] using ih a.render hrest
    | resize d =>
      obtain ⟨w, ht⟩ := d
      simpa [App.run, App.step] using ih _ hrest
    | input _ => simp [AppEvent.supported] at he
    | shutdown => simp [AppEvent.supported] at he

/-- Only renders: the viewport is unchanged and one frame per event is
appended at the current viewport. -/
theorem run_replicate_render (n : Nat) (a : App) :
    a.run (List.replicate n AppEvent.render)
      = .ok { a with frames := a.frames ++ List.replicate n (a.viewport, uiContent) } := by
  induction n generalizing a with
  | zero => simp [App.run]
  | succ n ih =>
    rw [List.replicate_succ]
    show App.run a.render (List.replicate n AppEvent.render) = _
    rw [ih a.render]
    simp [App.render, List.replicate_succ]

/-! ## Claims -/

/-- C1: for every sequence of `channel_open_session` calls on one
connection (starting from the default client), only the first call
succeeds — it stores `AppChannel.new id` and returns `Ok(true)` — every
later call fails with the bail error, and the stored channel is never
replaced or removed by any later open request. -/
theorem claim1_channel_open_only_first (id : Nat) (ids : List Nat) :
    (openAll AppClient.defaultClient (id :: ids)).1.app_channel
        = some (AppChannel.new id) ∧
    (openAll AppClient.defaultClient (id :: ids)).2
        = Except.ok true :: ids.map (fun _ => Except.error onlySingleChannelMsg) ∧
    ∀ ids₂ : List Nat,
      (openAll ⟨some (AppChannel.new id)⟩ ids₂).1 = ⟨some (AppChannel.new id)⟩ := by
  have h := openAll_some (AppChannel.new id) ids
  refine ⟨?_, ?_, fun ids₂ => ?_⟩
  · simp [openAll, AppClient.channel_open_session, AppClient.defaultClient, h]
  · simp [openAll, AppClient.channel_open_session, AppClient.defaultClient, h]
  · simp [openAll_some]

/-- C2: evaluating the run loop at an event variant other than `Render`
or `Resize` (here the reserved shutdown variant) hits the wildcard arm
`_ => unimplemented!()`, i.e. the process panics instead of resolving to
an explicit unsupported-event error. -/
theorem claim2_unsupported_event_panics :
    App.run App.new [AppEvent.shutdown] = .error RunError.panicUnimplemented ∧
    AppEvent.shutdown.supported = false := ⟨rfl, rfl⟩

/-- C3: processing `Resize (w, h)` overwrites the viewport with exactly
`⟨0, 0, w, h⟩` — independent of any previously stored dimensions — and
immediately, unconditionally appends a render of that new viewport in
the same event-handling step. -/
theorem claim3_resize_overwrites_then_renders (a : App) (w h : Nat) :
    a.step (AppEvent.resize (w, h)) =
      .ok { viewport := ⟨0, 0, w, h⟩,
            frames := a.frames ++ [(⟨0, 0, w, h⟩, uiContent)] } := rfl

/-- C4 counterexample: when data arrives and no `AppChannel` exists yet,
the handler sends no failure acknowledgment at all (`acks = []`) and
returns an error — which the transport layer treats as connection-fatal
— contradicting the claim that the error is surfaced as a request
failure acknowledgment with the connection kept alive. -/
theorem claim4_counterexample :
    (AppClient.defaultClient.data 0 (fun _ _ => Except.ok ()) []).acks = [] ∧
    (AppClient.defaultClient.data 0 (fun _ _ => Except.ok ()) []).result
      = Except.error expectedOpenMsg := ⟨rfl, rfl⟩

/-- C4 amended: when channel data arrives before a successful channel
open, the `data` handler sends no acknowledgment and returns the context
error (propagated to the russh runtime, hence connection-fatal), leaving
the client state unchanged. -/
theorem claim4_data_without_channel_fatal (c : AppClient) (ch : Nat)
    (stdin : AppChannel → List Nat → Except Unit Unit) (bytes : List Nat)
    (h : c.app_channel = none) :
    c.data ch stdin bytes = ⟨c, [], Except.error expectedOpenMsg⟩ := by
  cases c with
  | mk oc => subst h; rfl

theorem claim4_witness :
    AppClient.defaultClient.data 7 (fun _ _ => Except.ok ()) [1, 2]
      = ⟨AppClient.defaultClient, [], Except.error expectedOpenMsg⟩ :=
  claim4_data_without_channel_fatal AppClient.defaultClient 7 _ [1, 2] rfl

/-- C5: with an existing channel, each of the `data`, `pty_request` and
`window_change_request` handlers maps the delegated operation's outcome
uniformly through `channel_action_with_state` — `Ok` to a
`channel_success` acknowledgment, `Err` to a `channel_failure`
acknowledgment — and the handler itself returns `Ok(())`, never
propagating the operation's error. -/
theorem claim5_handlers_uniform_ack (c : AppClient) (app : AppChannel) (ch : Nat)
    (stdin : AppChannel → List Nat → Except Unit Unit)
    (create_pty resize : AppChannel → Nat → Nat → Except Unit Unit)
    (bytes : List Nat) (cw rh : Nat)
    (h : c.app_channel = some app) :
    c.data ch stdin bytes
      = ⟨c, [channel_action_with_state (stdin app bytes) ch], Except.ok ()⟩ ∧
    c.pty_request ch create_pty cw rh
      = ⟨c, [channel_action_with_state
          (create_pty app (cw % 2 ^ 16) (rh % 2 ^ 16)) ch], Except.ok ()⟩ ∧
    c.window_change_request ch resize cw rh
      = ⟨c, [channel_action_with_state
          (resize app (cw % 2 ^ 16) (rh % 2 ^ 16)) ch], Except.ok ()⟩ ∧
    channel_action_with_state (Except.ok ()) ch = Ack.success ch ∧
    channel_action_with_state (Except.error ()) ch = Ack.failure ch := by
  cases c with
  | mk oc => subst h; exact ⟨rfl, rfl, rfl, rfl, rfl⟩

theorem claim5_witness :
    ((AppClient.mk (some (AppChannel.new 3))).data 3 (fun _ _ => Except.ok ()) []
      = ⟨AppClient.mk (some (AppChannel.new 3)), [Ack.success 3], Except.ok ()⟩) ∧
    ((AppClient.mk (some (AppChannel.new 3))).pty_request 3
        (fun _ _ _ => Except.error ()) 80 24
      = ⟨AppClient.mk (some (AppChannel.new 3)), [Ack.failure 3], Except.ok ()⟩) ∧
    ((AppClient.mk (some (AppChannel.new 3))).window_change_request 3
        (fun _ _ _ => Except.ok ()) 80 24
      = ⟨AppClient.mk (some (AppChannel.new 3)), [Ack.success 3], Except.ok ()⟩) ∧
    channel_action_with_state (Except.ok ()) 3 = Ack.success 3 ∧
    channel_action_with_state (Except.error ()) 3 = Ack.failure 3 := by
  exact claim5_handlers_uniform_ack _ _ 3 _ _ _ [] 80 24 rfl

/-- C6 counterexample: the sequence `[Resize (0, 5)]` renders a frame
whose viewport is `⟨0, 0, 0, 5⟩`, a zero-width rectangle — so a
zero-sized viewport IS rendered, refuting the claim. -/
theorem claim6_counterexample :
    App.run App.new [AppEvent.resize (0, 5)]
      = .ok ⟨⟨0, 0, 0, 5⟩, [(⟨0, 0, 0, 5⟩, uiContent)]⟩ ∧
    (Rect.mk 0 0 0 5).width = 0 := ⟨rfl, rfl⟩

/-- C6 amended: the run loop performs no positivity check on the
viewport: after any successfully processed event sequence the viewport
equals exactly the last `Resize`'s `⟨0, 0, w, h⟩` (or the starting
viewport if none), zero dimensions included, and a `Render` at that
point unconditionally draws that viewport whatever its size. -/
theorem claim6_viewport_unguarded (a : App) (es : List AppEvent) (a' : App)
    (hrun : a.run es = .ok a') :
    a'.viewport = lastViewport a.viewport es ∧
    a'.step AppEvent.render
      = .ok { a' with frames := a'.frames ++ [(a'.viewport, uiContent)] } := by
  refine ⟨?_, rfl⟩
  induction es generalizing a with
  | nil =>
    simp [App.run] at hrun
    simp [lastViewport, hrun]
  | cons e es ih =>
    cases e with
    | render =>
      exact ih a.render (by simpa [App.run, App.step] using hrun)
    | resize d =>
      obtain ⟨w, ht⟩ := d
      exact ih _ (by simpa [App.run, App.step] using hrun)
    | input _ => simp [App.run, App.step] at hrun
    | shutdown => simp [App.run, App.step] at hrun

theorem claim6_witness :
    (App.run App.new [AppEvent.resize (0, 3), AppEvent.render]
      = .ok ⟨⟨0, 0, 0, 3⟩, [(⟨0, 0, 0, 3⟩, uiContent), (⟨0, 0, 0, 3⟩, uiContent)]⟩) ∧
    ((App.mk ⟨0, 0, 0, 3⟩ [(⟨0, 0, 0, 3⟩, uiContent), (⟨0, 0, 0, 3⟩, uiContent)]).viewport
        = lastViewport App.new.viewport [AppEvent.resize (0, 3), AppEvent.render] ∧
      (App.mk ⟨0, 0, 0, 3⟩ [(⟨0, 0, 0, 3⟩, uiContent), (⟨0, 0, 0, 3⟩, uiContent)]).step
          AppEvent.render
        = .ok (App.mk ⟨0, 0, 0, 3⟩
            [(⟨0, 0, 0, 3⟩, uiContent), (⟨0, 0, 0, 3⟩, uiContent),
             (⟨0, 0, 0, 3⟩, uiContent)])) :=
  ⟨rfl, claim6_viewport_unguarded App.new [AppEvent.resize (0, 3), AppEvent.render] _ rfl⟩

/-- C7: the run loop returns immediately with `Ok` (writing nothing)
when the stream is already closed and empty; for any stream of events the
match handles it terminates successfully exactly at end-of-stream; and
while more messages are pending (`es ++ more`) it keeps consuming them —
the run over the longer stream is the run over the prefix continued on
the rest — never exiting on its own. -/
theorem claim7_run_terminates_at_end_of_stream (a : App) (es more : List AppEvent)
    (h : ∀ e ∈ es, e.supported = true) :
    App.run a [] = .ok a ∧
    exceptOk (a.run es) = true ∧
    a.run (es ++ more)
      = (match a.run es with
         | .ok b => b.run more
         | .error err => .error err) := by
  exact ⟨rfl, run_ok_of_supported es a h, run_append a es more⟩

theorem claim7_witness :
    (∀ e ∈ [AppEvent.render, AppEvent.resize (80, 24)], e.supported = true) ∧
    (App.run App.new [] = .ok App.new ∧
     exceptOk (App.run App.new [AppEvent.render, AppEvent.resize (80, 24)]) = true ∧
     App.run App.new ([AppEvent.render, AppEvent.resize (80, 24)] ++ [AppEvent.render])
       = (match App.run App.new [AppEvent.render, AppEvent.resize (80, 24)] with
          | .ok b => b.run [AppEvent.render]
          | .error err => .error err)) :=
  ⟨by decide,
   claim7_run_terminates_at_end_of_stream App.new
     [AppEvent.render, AppEvent.resize (80, 24)] [AppEvent.render] (by decide)⟩

/-- C8: rendering is deterministic — two render invocations from states
with identical viewports (the UI-tree content is the same constant
`uiContent` in both) emit identical frames to the output sink. -/
theorem claim8_render_deterministic (a b : App) (hv : a.viewport = b.viewport) :
    a.render.frames.drop a.frames.length = b.render.frames.drop b.frames.length := by
  simp [App.render, hv]

theorem claim8_witness :
    (App.new.viewport = (App.mk Rect.defaultRect [(Rect.defaultRect, uiContent)]).viewport) ∧
    App.new.render.frames.drop App.new.frames.length
      = (App.mk Rect.defaultRect [(Rect.defaultRect, uiContent)]).render.frames.drop
          (App.mk Rect.defaultRect [(Rect.defaultRect, uiContent)]).frames.length :=
  ⟨rfl, claim8_render_deterministic _ _ rfl⟩

/-- C9: every authentication request — none, password or public key —
returns `Ok(Auth::Accept)` for every username, password and key; none
ever returns `Reject` or an error. -/
theorem claim9_auth_always_accepts (c : AppClient) (user password : String)
    (key : List Nat) :
    c.auth_none user = .ok Auth.accept ∧
    c.auth_password user password = .ok Auth.accept ∧
    c.auth_publickey user key = .ok Auth.accept := ⟨rfl, rfl, rfl⟩

/-- C10: `App::new` constructs the terminal with the fixed viewport
`Rect::default()` = `⟨0, 0, 0, 0⟩`, and any number of `Render` events
before the first `Resize` draws frames into that zero-sized viewport. -/
theorem claim10_new_zero_viewport (n : Nat) :
    App.new.viewport = Rect.defaultRect ∧
    App.run App.new (List.replicate n AppEvent.render)
      = .ok { viewport := Rect.defaultRect,
              frames := List.replicate n (Rect.defaultRect, uiContent) } := by
  refine ⟨rfl, ?_⟩
  simpa [App.new] using run_replicate_render n App.new

end BB
